import Mathlib

/-!
Verification of the options-chain trade-scoring engine (`trade.py`, `app.py`).

The Python code is shallowly embedded: every numeric value is modelled as a
rational number `ℚ` (the Python code computes with IEEE floats; none of the
properties checked here depend on rounding), Python dictionaries become
structures, and Python lists become `List`.  Python's `ZeroDivisionError` is
made explicit in separate `*_chk` variants that return `Except Unit _`; the
plain variants use Lean's total division (`x / 0 = 0`) and are proved to agree
with the checked variants whenever no division by zero occurs.

Number-to-text formatting (Python's `f"{x:.2f}"` and friends) is abstracted by
`fmtFixed`, a simple fixed-point renderer; no theorem below depends on the text
of a formatted number.
-/

/-- One row of the option chain, i.e. the per-strike dictionary built by
`read_option_chain` / `fetch_option_chain` in trade.py (keys `strike`,
`call_oi`, …, `put_ask`).  The `call_chng`/`put_chng` fields are carried
along but never used by the analysis functions. -/
structure StrikeRow where
  strike : ℚ
  call_oi : ℚ
  call_oi_chng : ℚ
  call_volume : ℚ
  call_iv : ℚ
  call_ltp : ℚ
  call_chng : ℚ
  call_bid : ℚ
  call_ask : ℚ
  put_oi : ℚ
  put_oi_chng : ℚ
  put_volume : ℚ
  put_iv : ℚ
  put_ltp : ℚ
  put_chng : ℚ
  put_bid : ℚ
  put_ask : ℚ
deriving DecidableEq

/-- The dictionary returned by `analyze_market_direction` (trade.py 218-226). -/
structure MarketDirection where
  bias : String
  confidence : ℚ
  target_price : ℚ
  pcr : ℚ
  reason : String
  max_call_oi_strike : ℚ
  max_put_oi_strike : ℚ
deriving DecidableEq

/-- A trade-candidate dictionary as built by `analyze_best_trades` and
`analyze_price_imbalances`.  The imbalance candidates of trade.py carry no
`oi_chng`/`volume`/`iv` keys, hence those fields are `Option ℚ`
(`none` models an absent key). -/
structure Trade where
  type : String
  strike : ℚ
  buy_price : ℚ
  exit : ℚ
  stop_loss : ℚ
  oi_chng : Option ℚ
  volume : Option ℚ
  iv : Option ℚ
  score : ℚ
  reason : String
deriving DecidableEq

/-- Result dictionary of `analyze_best_trades` (trade.py 446-450). -/
structure BestTrades where
  best_overall : List Trade
  best_atm : List Trade
  best_otm : List Trade
deriving DecidableEq

/-- The slice of the volume-data dictionary that `analyze_volume_signals`
reads: the `success` flag and the optional keys `inflow_ratio`,
`outflow_ratio` and `delivery_percentage` (`none` models an absent key). -/
structure VolumeData where
  success : Bool
  inflow_ratio : Option ℚ
  outflow_ratio : Option ℚ
  delivery_percentage : Option ℚ
deriving DecidableEq

/-- The `signals` dictionary built by `analyze_volume_signals` (trade.py 643-647). -/
structure VolumeSignals where
  volume_score : ℚ
  volume_signal : String
  reasons : List String
deriving DecidableEq

/-- The slice of a news-item dictionary read by `calculate_overall_sentiment`:
keys `sentiment`, `sentiment_score` and `impact_factors`. -/
structure NewsItem where
  sentiment : String
  sentiment_score : ℚ
  impact_factors : List String
deriving DecidableEq

/-- The dictionary returned by `calculate_overall_sentiment` (trade.py 870-875). -/
structure OverallSentiment where
  sentiment : String
  score : ℚ
  confidence : String
  summary : String
deriving DecidableEq

/-- Fixed-point decimal rendering of a rational, abstracting Python's
`f"{x:.<d>f}"` float formatting (the exact rounding of the float formatter is
not reproduced; no theorem depends on a formatted number's text). -/
def fmtFixed (d : ℕ) (q : ℚ) : String :=
  let m : ℤ := round (q * (10 : ℚ) ^ d)
  let sgn := if m < 0 then "-" else ""
  let a := m.natAbs
  let ip := a / 10 ^ d
  let fp := a % 10 ^ d
  let fpStr := toString fp
  let pad := String.mk (List.replicate (d - fpStr.length) '0')
  if d = 0 then sgn ++ toString ip else sgn ++ toString ip ++ "." ++ pad ++ fpStr

/-- Python's `f"{x:.1%}"` percent formatting, via `fmtFixed`. -/
def fmtPct (q : ℚ) : String := fmtFixed 1 (q * 100) ++ "%"

/-- Scoring function `calculate_score` (trade.py 452-463): four sub-scores,
the first, second and fourth capped above at 10, the spread sub-score capped
below at 0, combined with weights 0.4/0.3/0.2/0.1. -/
def calculate_score (oi_change volume spread_pct iv : ℚ) : ℚ :=
  let oi_score := min (oi_change / 1000) 10
  let volume_score := min (volume / 5000) 10
  let spread_score := max (10 - spread_pct * 100) 0
  let iv_score := min (iv / 5) 10
  oi_score * (4/10) + volume_score * (3/10) + spread_score * (2/10) + iv_score * (1/10)

/-- Accumulator of the aggregation loop of `analyze_market_direction`
(trade.py 165-183): OI and volume sums plus the running max-OI strikes. -/
structure MDAcc where
  call_oi_sum : ℚ
  put_oi_sum : ℚ
  call_volume_sum : ℚ
  put_volume_sum : ℚ
  max_call_oi_strike : ℚ
  max_call_oi : ℚ
  max_put_oi_strike : ℚ
  max_put_oi : ℚ
deriving DecidableEq

/-- Initial accumulator (`sums = 0`, `max_*_oi = {'strike': 0, 'oi': 0}`). -/
def md_init : MDAcc :=
  { call_oi_sum := 0, put_oi_sum := 0, call_volume_sum := 0, put_volume_sum := 0,
    max_call_oi_strike := 0, max_call_oi := 0, max_put_oi_strike := 0, max_put_oi := 0 }

/-- Body of the loop for a strike inside the ±5% window (trade.py 175-183). -/
def md_update (acc : MDAcc) (opt : StrikeRow) : MDAcc :=
  let acc1 :=
    { acc with
      call_oi_sum := acc.call_oi_sum + opt.call_oi
      put_oi_sum := acc.put_oi_sum + opt.put_oi
      call_volume_sum := acc.call_volume_sum + opt.call_volume
      put_volume_sum := acc.put_volume_sum + opt.put_volume }
  let acc2 :=
    if opt.call_oi > acc1.max_call_oi then
      { acc1 with max_call_oi_strike := opt.strike, max_call_oi := opt.call_oi }
    else acc1
  if opt.put_oi > acc2.max_put_oi then
    { acc2 with max_put_oi_strike := opt.strike, max_put_oi := opt.put_oi }
  else acc2

/-- One loop step of `analyze_market_direction`: only strikes with
`abs(strike - current_price) / current_price <= 0.05` are aggregated. -/
def md_step (cp : ℚ) (acc : MDAcc) (opt : StrikeRow) : MDAcc :=
  if |opt.strike - cp| / cp ≤ 5/100 then md_update acc opt else acc

/-- Decision part of `analyze_market_direction` (trade.py 188-226), given the
aggregates: the PCR rules (evaluated as `if/elif`), the volume-ratio rules,
the target-price selection and the final dictionary with `confidence` clamped
by `min(confidence, 100)`. -/
def md_finish (cp : ℚ) (acc : MDAcc) (pcr volume_ratio : ℚ) : MarketDirection :=
  let step1 :=
    if pcr > 3/2 then
      ("Bullish", (30 : ℚ), ["High Put-Call Ratio indicates potential reversal"])
    else if pcr < 7/10 then
      ("Bearish", (30 : ℚ), ["Low Put-Call Ratio indicates potential reversal"])
    else ("Neutral", (0 : ℚ), ([] : List String))
  let bias := step1.1
  let step2 :=
    if volume_ratio > 6/5 then
      ((if bias = "Bearish" then step1.2.1 + 20 else step1.2.1),
        step1.2.2 ++ ["Higher Put volume indicates bearish sentiment"])
    else if volume_ratio < 4/5 then
      ((if bias = "Bullish" then step1.2.1 + 20 else step1.2.1),
        step1.2.2 ++ ["Higher Call volume indicates bullish sentiment"])
    else (step1.2.1, step1.2.2)
  let target_price :=
    if bias = "Bullish" then max acc.max_call_oi_strike (cp * (101/100))
    else if bias = "Bearish" then min acc.max_put_oi_strike (cp * (99/100))
    else cp
  { bias := bias, confidence := min step2.1 100, target_price := target_price,
    pcr := pcr, reason := String.intercalate ". " step2.2,
    max_call_oi_strike := acc.max_call_oi_strike,
    max_put_oi_strike := acc.max_put_oi_strike }

/-- `analyze_market_direction` (trade.py 163-226).  `pcr` and `volume_ratio`
carry the source's explicit zero-sum guards. -/
def analyze_market_direction (options : List StrikeRow) (current_price : ℚ) :
    MarketDirection :=
  let acc := options.foldl (md_step current_price) md_init
  let pcr := if acc.call_oi_sum > 0 then acc.put_oi_sum / acc.call_oi_sum else 0
  let volume_ratio :=
    if acc.call_volume_sum > 0 then acc.put_volume_sum / acc.call_volume_sum else 0
  md_finish current_price acc pcr volume_ratio

/-- Stable insertion step for a descending sort by `key`: `a` is placed before
the first element whose key is ≤ its own, so an earlier element wins ties. -/
def insert_desc {α : Type} (key : α → ℚ) (a : α) : List α → List α
  | [] => [a]
  | b :: bs => if key b ≤ key a then a :: b :: bs else b :: insert_desc key a bs

/-- Stable descending sort by `key`, modelling Python's stable
`list.sort(key=..., reverse=True)`: any two stable sorts under the same total
preorder agree, so this insertion sort is extensionally the sort the source
performs. -/
def sort_desc {α : Type} (key : α → ℚ) : List α → List α
  | [] => []
  | a :: rest => insert_desc key a (sort_desc key rest)

/-- `analyze_volume_signals` (trade.py 641-695): the default
zero/Neutral/no-reason dictionary, returned as-is when `success` is falsy;
otherwise the inflow/outflow threshold chain (executed only when both keys are
present) followed by the delivery-percentage adjustment (executed only when
that key is present). -/
def analyze_volume_signals (volume_data : VolumeData) : VolumeSignals :=
  let signals : VolumeSignals := { volume_score := 0, volume_signal := "Neutral", reasons := [] }
  if volume_data.success = false then signals
  else
    let s1 :=
      match volume_data.inflow_ratio, volume_data.outflow_ratio with
      | some inflow, some outflow =>
        let vscore := (inflow - outflow) * 20
        if vscore > 3 then
          { volume_score := vscore, volume_signal := "Strong Bullish",
            reasons := ["Strong buying pressure with " ++ fmtPct inflow ++ " inflow ratio"] }
        else if vscore > 1 then
          { volume_score := vscore, volume_signal := "Bullish",
            reasons := ["Moderate buying with " ++ fmtPct inflow ++ " inflow ratio"] }
        else if vscore < -3 then
          { volume_score := vscore, volume_signal := "Strong Bearish",
            reasons := ["Strong selling pressure with " ++ fmtPct outflow ++ " outflow ratio"] }
        else if vscore < -1 then
          { volume_score := vscore, volume_signal := "Bearish",
            reasons := ["Moderate selling with " ++ fmtPct outflow ++ " outflow ratio"] }
        else
          { volume_score := vscore, volume_signal := "Neutral",
            reasons := ["Balanced buying and selling pressure"] }
      | _, _ => signals
    match volume_data.delivery_percentage with
    | none => s1
    | some delivery_pct =>
      if delivery_pct > 60 then
        { s1 with
          volume_score := s1.volume_score + 3
          reasons := s1.reasons ++ ["High delivery percentage (" ++ fmtFixed 1 delivery_pct
            ++ "%) indicates strong conviction"] }
      else if delivery_pct > 40 then
        { s1 with
          volume_score := s1.volume_score + 1
          reasons := s1.reasons ++ ["Good delivery percentage (" ++ fmtFixed 1 delivery_pct
            ++ "%) shows investor interest"] }
      else { s1 with volume_score := s1.volume_score + 0 }

/-- The recency weights of `calculate_overall_sentiment` (trade.py 835). -/
def sentimentWeights : List ℚ := [1, 7/10, 2/5]

/-- `calculate_overall_sentiment` (trade.py 822-875).  The weighted sum runs
over `news_items[:3]` zipped with the weights; the divisor is
`sum(weights[:len(news_items)])`; the confidence comes from the number of
distinct `sentiment` values over ALL items.  `List.dedup` stands in for
Python's `list(set(...))`, whose iteration order is unspecified — only the
`summary` text (never stated in the theorems) depends on that order. -/
def calculate_overall_sentiment (news_items : List NewsItem) : OverallSentiment :=
  match news_items with
  | [] =>
    { sentiment := "Neutral", score := 0, confidence := "Low",
      summary := "No recent news available" }
  | _ :: _ =>
    let total_score :=
      (List.zipWith (fun item w => item.sentiment_score * w)
        (news_items.take 3) sentimentWeights).sum
    let avg_score := total_score / (sentimentWeights.take news_items.length).sum
    let sentiment :=
      if avg_score > 3/10 then "Bullish"
      else if avg_score < -(3/10) then "Bearish"
      else "Neutral"
    let sentiments := news_items.map (fun item => item.sentiment)
    let confidence :=
      if sentiments.dedup.length = 1 then "High"
      else if sentiments.dedup.length = 2 then "Medium"
      else "Low"
    let impact := (news_items.flatMap (fun item => item.impact_factors)).dedup
    let base := sentiment ++ " sentiment with " ++ confidence.toLower ++ " confidence"
    let summary :=
      if impact.isEmpty then base
      else base ++ ". Key factors: " ++ String.intercalate ", " (impact.take 3)
    { sentiment := sentiment, score := avg_score, confidence := confidence,
      summary := summary }

/-- The spec's description of the aggregate news score (§4.6 and claim C8):
the weighted average of the up-to-3 most recent items' scores with weights
`[1.0, 0.7, 0.4]`, normalized by the sum of the weights actually used.  This
definition follows the SPEC's words; the claim compares it with the code's
`calculate_overall_sentiment`. -/
def spec_weighted_average (news_items : List NewsItem) : ℚ :=
  let used := sentimentWeights.take (min news_items.length 3)
  (List.zipWith (fun item w => item.sentiment_score * w) news_items sentimentWeights).sum
    / used.sum

/-- `volume_bias` of `analyze_best_trades` (trade.py 266-268): 0 when no
volume-signal dictionary is given, else its `volume_score`. -/
def volume_bias_of (volume_signals : Option VolumeSignals) : ℚ :=
  match volume_signals with
  | some vs => vs.volume_score
  | none => 0

/-- `volume_reason` built inside each candidate branch (trade.py 299-301):
empty unless a volume-signal dictionary with a truthy (non-empty)
`volume_signal` string is present. -/
def volume_reason_of (volume_signals : Option VolumeSignals) : String :=
  match volume_signals with
  | some vs => if vs.volume_signal = "" then "" else " Volume signal: " ++ vs.volume_signal
  | none => ""

/-- Decimal-string rendering of a rational, abstracting Python's `str(float)`
inside f-strings; no theorem depends on this text. -/
def ratStr (q : ℚ) : String :=
  if q.den = 1 then toString q.num else toString q.num ++ "/" ++ toString q.den

/-- The ATM CALL candidate dictionary (trade.py 303-314). -/
def mk_atm_call (opt : StrikeRow) (score : ℚ) (vr : String) : Trade :=
  { type := "CALL", strike := opt.strike, buy_price := opt.call_ask,
    exit := opt.call_ask * (15/10), stop_loss := opt.call_bid * (7/10),
    oi_chng := some opt.call_oi_chng, volume := some opt.call_volume,
    iv := some opt.call_iv, score := score,
    reason := "ATM CALL with strong OI buildup and volume." ++ vr }

/-- The ATM PUT candidate dictionary (trade.py 344-355). -/
def mk_atm_put (opt : StrikeRow) (score : ℚ) (vr : String) : Trade :=
  { type := "PUT", strike := opt.strike, buy_price := opt.put_ask,
    exit := opt.put_ask * (15/10), stop_loss := opt.put_bid * (7/10),
    oi_chng := some opt.put_oi_chng, volume := some opt.put_volume,
    iv := some opt.put_iv, score := score,
    reason := "ATM PUT with strong OI buildup and volume." ++ vr }

/-- The OTM CALL candidate dictionary (trade.py 386-397). -/
def mk_otm_call (opt : StrikeRow) (score risk_reward : ℚ) (vr : String) : Trade :=
  { type := "CALL", strike := opt.strike, buy_price := opt.call_ask,
    exit := opt.call_ask * 2, stop_loss := opt.call_bid * (6/10),
    oi_chng := some opt.call_oi_chng, volume := some opt.call_volume,
    iv := some opt.call_iv, score := score,
    reason := "OTM CALL with potential momentum, Risk:Reward = 1:"
      ++ fmtFixed 1 risk_reward ++ "." ++ vr }

/-- The OTM PUT candidate dictionary (trade.py 425-436). -/
def mk_otm_put (opt : StrikeRow) (score risk_reward : ℚ) (vr : String) : Trade :=
  { type := "PUT", strike := opt.strike, buy_price := opt.put_ask,
    exit := opt.put_ask * 2, stop_loss := opt.put_bid * (6/10),
    oi_chng := some opt.put_oi_chng, volume := some opt.put_volume,
    iv := some opt.put_iv, score := score,
    reason := "OTM PUT with potential momentum, Risk:Reward = 1:"
      ++ fmtFixed 1 risk_reward ++ "." ++ vr }

/-- ATM CALL branch of `analyze_best_trades` (trade.py 275-314).  Python
computes `call_spread_pct` as `inf` when `call_ltp <= 0`, which fails the
`< 0.05` test; the guard `call_ltp > 0 ∧ spread/ltp < 0.05` is exactly that
test. -/
def atm_call_cand (pct vb : ℚ) (vr : String) (opt : StrikeRow) : List Trade :=
  if opt.call_oi_chng > 0 ∧ opt.call_volume > 1000 then
    if opt.call_ltp > 0 then
     if (opt.call_ask - opt.call_bid) / opt.call_ltp < 5/100 then
      let call_spread_pct := (opt.call_ask - opt.call_bid) / opt.call_ltp
      let market_bias_factor : ℚ := if pct < 0 then 12/10 else 9/10
      let vol_oi_ratio := if opt.call_oi > 0 then opt.call_volume / opt.call_oi else 0
      let volume_factor := if vb > 0 then 1 + vb / 20 else 1
      let enhanced_score :=
        calculate_score opt.call_oi_chng opt.call_volume call_spread_pct opt.call_iv
          * market_bias_factor * (1 + min (vol_oi_ratio * (1/10)) (5/10)) * volume_factor
      [mk_atm_call opt enhanced_score vr]
     else []
    else []
  else []

/-- ATM PUT branch of `analyze_best_trades` (trade.py 316-355). -/
def atm_put_cand (pct vb : ℚ) (vr : String) (opt : StrikeRow) : List Trade :=
  if opt.put_oi_chng > 0 ∧ opt.put_volume > 1000 then
    if opt.put_ltp > 0 then
     if (opt.put_ask - opt.put_bid) / opt.put_ltp < 5/100 then
      let put_spread_pct := (opt.put_ask - opt.put_bid) / opt.put_ltp
      let market_bias_factor : ℚ := if pct > 0 then 12/10 else 9/10
      let vol_oi_ratio := if opt.put_oi > 0 then opt.put_volume / opt.put_oi else 0
      let volume_factor := if vb < 0 then 1 + |vb| / 20 else 1
      let enhanced_score :=
        calculate_score opt.put_oi_chng opt.put_volume put_spread_pct opt.put_iv
          * market_bias_factor * (1 + min (vol_oi_ratio * (1/10)) (5/10)) * volume_factor
      [mk_atm_put opt enhanced_score vr]
     else []
    else []
  else []

/-- OTM CALL branch of `analyze_best_trades` (trade.py 359-397). -/
def otm_call_cand (vb : ℚ) (vr : String) (opt : StrikeRow) : List Trade :=
  if opt.call_oi_chng > 0 ∧ opt.call_volume > 500 then
    if opt.call_ltp > 0 then
     if (opt.call_ask - opt.call_bid) / opt.call_ltp < 8/100 then
      let spread_pct := (opt.call_ask - opt.call_bid) / opt.call_ltp
      let risk := opt.call_ask - opt.call_bid * (6/10)
      let reward := opt.call_ask * 2 - opt.call_ask
      let risk_reward := if risk > 0 then reward / risk else 0
      let volume_factor := if vb > 0 then 1 + vb / 20 else 1
      let enhanced_score :=
        calculate_score opt.call_oi_chng opt.call_volume spread_pct opt.call_iv
          * min (risk_reward * (2/10)) (15/10) * volume_factor
      [mk_otm_call opt enhanced_score risk_reward vr]
     else []
    else []
  else []

/-- OTM PUT branch of `analyze_best_trades` (trade.py 398-436). -/
def otm_put_cand (vb : ℚ) (vr : String) (opt : StrikeRow) : List Trade :=
  if opt.put_oi_chng > 0 ∧ opt.put_volume > 500 then
    if opt.put_ltp > 0 then
     if (opt.put_ask - opt.put_bid) / opt.put_ltp < 8/100 then
      let spread_pct := (opt.put_ask - opt.put_bid) / opt.put_ltp
      let risk := opt.put_ask - opt.put_bid * (6/10)
      let reward := opt.put_ask * 2 - opt.put_ask
      let risk_reward := if risk > 0 then reward / risk else 0
      let volume_factor := if vb < 0 then 1 + |vb| / 20 else 1
      let enhanced_score :=
        calculate_score opt.put_oi_chng opt.put_volume spread_pct opt.put_iv
          * min (risk_reward * (2/10)) (15/10) * volume_factor
      [mk_otm_put opt enhanced_score risk_reward vr]
     else []
    else []
  else []

/-- What one loop iteration of `analyze_best_trades` (trade.py 270-436)
appends to `atm_opportunities` for one strike row: the ATM window
(`|pct| ≤ 0.02`) contributes its CALL then PUT candidates, other rows
nothing. -/
def row_atm_trades (cp vb : ℚ) (vr : String) (opt : StrikeRow) : List Trade :=
  let pct := (opt.strike - cp) / cp
  if |pct| ≤ 2/100 then atm_call_cand pct vb vr opt ++ atm_put_cand pct vb vr opt
  else []

/-- What one loop iteration appends to `otm_opportunities`: the `elif` OTM
window (`0.02 < |pct| ≤ 0.10`) contributes a CALL candidate above spot, a PUT
candidate below, other rows nothing. -/
def row_otm_trades (cp vb : ℚ) (vr : String) (opt : StrikeRow) : List Trade :=
  let pct := (opt.strike - cp) / cp
  if |pct| ≤ 2/100 then []
  else if 2/100 < |pct| ∧ |pct| ≤ 10/100 then
    (if pct > 0 then otm_call_cand vb vr opt else otm_put_cand vb vr opt)
  else []

/-- Both contributions of one loop iteration, as a pair. -/
def row_trades (cp vb : ℚ) (vr : String) (opt : StrikeRow) : List Trade × List Trade :=
  (row_atm_trades cp vb vr opt, row_otm_trades cp vb vr opt)

/-- The full `atm_opportunities` list accumulated by the loop, in input order. -/
def atm_pool (options : List StrikeRow) (cp vb : ℚ) (vr : String) : List Trade :=
  (options.map (row_atm_trades cp vb vr)).flatten

/-- The full `otm_opportunities` list accumulated by the loop, in input order. -/
def otm_pool (options : List StrikeRow) (cp vb : ℚ) (vr : String) : List Trade :=
  (options.map (row_otm_trades cp vb vr)).flatten

/-- `analyze_best_trades` (trade.py 256-450): both pools sorted descending by
score, `best_overall` the head of the re-sorted concatenation, and the top-2
slices of each pool. -/
def analyze_best_trades (options : List StrikeRow) (cp : ℚ)
    (volume_signals : Option VolumeSignals) : BestTrades :=
  let vb := volume_bias_of volume_signals
  let vr := volume_reason_of volume_signals
  let atmS := sort_desc (fun t => t.score) (atm_pool options cp vb vr)
  let otmS := sort_desc (fun t => t.score) (otm_pool options cp vb vr)
  let allS := sort_desc (fun t => t.score) (atmS ++ otmS)
  { best_overall := allS.take 1, best_atm := atmS.take 2, best_otm := otmS.take 2 }

/-- The imbalance PUT candidate dictionary (trade.py 1296-1305); no
`oi_chng`/`volume`/`iv` keys. -/
def mk_imb_put (opt : StrikeRow) (call_put_ratio : ℚ) : Trade :=
  { type := "PUT", strike := opt.strike, buy_price := opt.put_ask,
    exit := opt.put_ask * (15/10), stop_loss := opt.put_bid * (7/10),
    oi_chng := none, volume := none, iv := none,
    score := min ((call_put_ratio - 15/10) * 10) 10,
    reason := "Calls expensive relative to puts (ratio: "
      ++ fmtFixed 2 call_put_ratio ++ ")" }

/-- The imbalance CALL candidate dictionary (trade.py 1307-1316); `inv` is the
value of `0.67 / call_put_ratio`. -/
def mk_imb_call (opt : StrikeRow) (call_put_ratio inv : ℚ) : Trade :=
  { type := "CALL", strike := opt.strike, buy_price := opt.call_ask,
    exit := opt.call_ask * (15/10), stop_loss := opt.call_bid * (7/10),
    oi_chng := none, volume := none, iv := none,
    score := min ((inv - 1) * 10) 10,
    reason := "Puts expensive relative to calls (ratio: "
      ++ fmtFixed 2 call_put_ratio ++ ")" }

/-- Loop body of `analyze_price_imbalances` (trade.py 1265-1316) for one row:
each `continue` becomes `none`.  The `>` comparisons on spreads and the 7%
distance are kept exactly as in the source (a row is kept when they are `≤`). -/
def imb_cand (cp : ℚ) (opt : StrikeRow) : Option Trade :=
  if opt.call_ltp ≤ 0 ∨ opt.put_ltp ≤ 0 then none
  else
    let strike_distance := |opt.strike - cp|
    let strike_distance_pct := strike_distance / cp
    if strike_distance_pct > 7/100 then none
    else
      let call_put_ratio := opt.call_ltp / opt.put_ltp
      if opt.call_volume < 500 ∨ opt.put_volume < 500 then none
      else
        let call_spread := opt.call_ask - opt.call_bid
        let put_spread := opt.put_ask - opt.put_bid
        if call_spread / opt.call_ltp > 5/100 then none
        else if put_spread / opt.put_ltp > 5/100 then none
        else if call_put_ratio > 15/10 then
          some (mk_imb_put opt call_put_ratio)
        else if call_put_ratio < 67/100 then
          some (mk_imb_call opt call_put_ratio (67/100 / call_put_ratio))
        else none

/-- `analyze_price_imbalances` (trade.py 1261-1320): per-row candidates in
input order, then sorted descending by score. -/
def analyze_price_imbalances (options : List StrikeRow) (cp : ℚ) : List Trade :=
  sort_desc (fun t => t.score) (options.filterMap (imb_cand cp))

/-- Directional-alignment test of the recommender (app.py 234-240). -/
def is_aligned (bias news_sent sector_sent : String) (t : Trade) : Bool :=
  (t.type == "CALL" && bias == "Bullish" && news_sent != "Bearish"
      && sector_sent != "Bearish")
    || (t.type == "PUT" && bias == "Bearish" && news_sent != "Bullish"
      && sector_sent != "Bullish")

/-- The merged `high_potential_trades` pool (app.py 204-215): best overall,
top ATM, top OTM and the top-2 imbalance candidates, in that order.  The
source guards each `extend` with a non-emptiness test, which is a no-op for
list concatenation. -/
def high_potential_pool (best : BestTrades) (imbalance : List Trade) : List Trade :=
  best.best_overall ++ best.best_atm ++ best.best_otm ++ imbalance.take 2

/-- The `top_trade` value assembled by the recommender (app.py 243-261):
either a selected candidate with its composed recommendation text, or the
sentinel dictionary. -/
structure BestTradeSel where
  trade : Option Trade
  type : String
  recommendation : String
  reason : String
deriving DecidableEq

/-- The sentinel `top_trade` of app.py 256-261. -/
def no_trade_sentinel : BestTradeSel :=
  { trade := none, type := "NONE",
    recommendation := "No high-potential trades found",
    reason := "Consider checking all available trades below" }

/-- Selection step of the recommender in `fetch_option_chain`
(app.py 217-261): on a non-empty pool, sort descending by score (stable),
filter to directionally aligned candidates, take the first aligned candidate
or else the first of the sorted pool, and attach the composed recommendation;
on an empty pool, the sentinel.  `bias`/`confidence` come from
`market_direction`, `news_sent`/`news_summary` from the aggregated news
sentiment, and `sector`/`sector_sent` are the sector name and the sector
sentiment computed from market news (an input here, as claim C5 frames it). -/
def select_top_trade (pool : List Trade) (bias : String) (confidence : ℚ)
    (news_sent news_summary sector sector_sent : String) : BestTradeSel :=
  match pool with
  | [] => no_trade_sentinel
  | p :: ps =>
    let sorted := sort_desc (fun t => t.score) (p :: ps)
    let aligned := sorted.filter (is_aligned bias news_sent sector_sent)
    let top := match aligned with
      | t :: _ => t
      | [] => sorted.headD p
    let market_context := " Market: " ++ bias ++ " with " ++ ratStr confidence
      ++ "% confidence"
    let sector_context := " Sector: " ++ sector ++ " sentiment is " ++ sector_sent
    let news_context := " News: " ++ news_summary
    { trade := some top, type := top.type,
      recommendation := "BEST TRADE: " ++ top.type ++ " at strike ₹"
        ++ ratStr top.strike ++ ". " ++ market_context ++ "." ++ sector_context
        ++ "." ++ news_context,
      reason := top.reason }

/-- Division with Python's `ZeroDivisionError` made explicit. -/
def divE (a b : ℚ) : Except Unit ℚ :=
  if b = 0 then Except.error () else Except.ok (a / b)

/-- Checked variant of `md_step`: the band test divides by `current_price`. -/
def md_step_chk (cp : ℚ) (acc : MDAcc) (opt : StrikeRow) : Except Unit MDAcc := do
  let q ← divE (|opt.strike - cp|) cp
  if q ≤ 5/100 then pure (md_update acc opt) else pure acc

/-- Checked aggregation loop of `analyze_market_direction`. -/
def md_loop_chk (cp : ℚ) : MDAcc → List StrikeRow → Except Unit MDAcc
  | acc, [] => Except.ok acc
  | acc, opt :: rest => do
    let acc1 ← md_step_chk cp acc opt
    md_loop_chk cp acc1 rest

/-- Checked variant of `analyze_market_direction`: every division the Python
source performs goes through `divE`; sums guard the ratio divisions exactly as
in the source. -/
def analyze_market_direction_chk (options : List StrikeRow) (cp : ℚ) :
    Except Unit MarketDirection := do
  let acc ← md_loop_chk cp md_init options
  let pcr ← if acc.call_oi_sum > 0 then divE acc.put_oi_sum acc.call_oi_sum else pure 0
  let volume_ratio ←
    if acc.call_volume_sum > 0 then divE acc.put_volume_sum acc.call_volume_sum
    else pure 0
  pure (md_finish cp acc pcr volume_ratio)

/-- Checked ATM CALL branch: the spread division happens only under the
`call_ltp > 0` guard (otherwise Python's `inf` fails the `< 0.05` test with no
division), the volume/OI and bias divisions under their own guards. -/
def atm_call_cand_chk (pct vb : ℚ) (vr : String) (opt : StrikeRow) :
    Except Unit (List Trade) :=
  if opt.call_oi_chng > 0 ∧ opt.call_volume > 1000 then
    if opt.call_ltp > 0 then do
      let call_spread_pct ← divE (opt.call_ask - opt.call_bid) opt.call_ltp
      if call_spread_pct < 5/100 then do
        let market_bias_factor : ℚ := if pct < 0 then 12/10 else 9/10
        let vol_oi_ratio ← if opt.call_oi > 0 then divE opt.call_volume opt.call_oi
          else pure 0
        let volume_factor ← if vb > 0 then do
            let t ← divE vb 20
            pure (1 + t)
          else pure (1 : ℚ)
        let enhanced_score :=
          calculate_score opt.call_oi_chng opt.call_volume call_spread_pct opt.call_iv
            * market_bias_factor * (1 + min (vol_oi_ratio * (1/10)) (5/10))
            * volume_factor
        pure [mk_atm_call opt enhanced_score vr]
      else pure []
    else pure []
  else pure []

/-- Checked ATM PUT branch. -/
def atm_put_cand_chk (pct vb : ℚ) (vr : String) (opt : StrikeRow) :
    Except Unit (List Trade) :=
  if opt.put_oi_chng > 0 ∧ opt.put_volume > 1000 then
    if opt.put_ltp > 0 then do
      let put_spread_pct ← divE (opt.put_ask - opt.put_bid) opt.put_ltp
      if put_spread_pct < 5/100 then do
        let market_bias_factor : ℚ := if pct > 0 then 12/10 else 9/10
        let vol_oi_ratio ← if opt.put_oi > 0 then divE opt.put_volume opt.put_oi
          else pure 0
        let volume_factor ← if vb < 0 then do
            let t ← divE (|vb|) 20
            pure (1 + t)
          else pure (1 : ℚ)
        let enhanced_score :=
          calculate_score opt.put_oi_chng opt.put_volume put_spread_pct opt.put_iv
            * market_bias_factor * (1 + min (vol_oi_ratio * (1/10)) (5/10))
            * volume_factor
        pure [mk_atm_put opt enhanced_score vr]
      else pure []
    else pure []
  else pure []

/-- Checked OTM CALL branch. -/
def otm_call_cand_chk (vb : ℚ) (vr : String) (opt : StrikeRow) :
    Except Unit (List Trade) :=
  if opt.call_oi_chng > 0 ∧ opt.call_volume > 500 then
    if opt.call_ltp > 0 then do
      let spread_pct ← divE (opt.call_ask - opt.call_bid) opt.call_ltp
      if spread_pct < 8/100 then do
        let risk := opt.call_ask - opt.call_bid * (6/10)
        let reward := opt.call_ask * 2 - opt.call_ask
        let risk_reward ← if risk > 0 then divE reward risk else pure (0 : ℚ)
        let volume_factor ← if vb > 0 then do
            let t ← divE vb 20
            pure (1 + t)
          else pure (1 : ℚ)
        let enhanced_score :=
          calculate_score opt.call_oi_chng opt.call_volume spread_pct opt.call_iv
            * min (risk_reward * (2/10)) (15/10) * volume_factor
        pure [mk_otm_call opt enhanced_score risk_reward vr]
      else pure []
    else pure []
  else pure []

/-- Checked OTM PUT branch. -/
def otm_put_cand_chk (vb : ℚ) (vr : String) (opt : StrikeRow) :
    Except Unit (List Trade) :=
  if opt.put_oi_chng > 0 ∧ opt.put_volume > 500 then
    if opt.put_ltp > 0 then do
      let spread_pct ← divE (opt.put_ask - opt.put_bid) opt.put_ltp
      if spread_pct < 8/100 then do
        let risk := opt.put_ask - opt.put_bid * (6/10)
        let reward := opt.put_ask * 2 - opt.put_ask
        let risk_reward ← if risk > 0 then divE reward risk else pure (0 : ℚ)
        let volume_factor ← if vb < 0 then do
            let t ← divE (|vb|) 20
            pure (1 + t)
          else pure (1 : ℚ)
        let enhanced_score :=
          calculate_score opt.put_oi_chng opt.put_volume spread_pct opt.put_iv
            * min (risk_reward * (2/10)) (15/10) * volume_factor
        pure [mk_otm_put opt enhanced_score risk_reward vr]
      else pure []
    else pure []
  else pure []

/-- Checked loop iteration of `analyze_best_trades`: the very first statement
divides `(strike - current_price)` by `current_price`. -/
def row_trades_chk (cp vb : ℚ) (vr : String) (opt : StrikeRow) :
    Except Unit (List Trade × List Trade) := do
  let pct ← divE (opt.strike - cp) cp
  if |pct| ≤ 2/100 then do
    let calls ← atm_call_cand_chk pct vb vr opt
    let puts ← atm_put_cand_chk pct vb vr opt
    pure (calls ++ puts, [])
  else if 2/100 < |pct| ∧ |pct| ≤ 10/100 then do
    let otm ← if pct > 0 then otm_call_cand_chk vb vr opt else otm_put_cand_chk vb vr opt
    pure ([], otm)
  else pure ([], [])

/-- Checked row loop of `analyze_best_trades`, in input order. -/
def best_rows_chk (cp vb : ℚ) (vr : String) :
    List StrikeRow → Except Unit (List (List Trade × List Trade))
  | [] => Except.ok []
  | opt :: rest => do
    let pair ← row_trades_chk cp vb vr opt
    let tail ← best_rows_chk cp vb vr rest
    pure (pair :: tail)

/-- Checked variant of `analyze_best_trades`. -/
def analyze_best_trades_chk (options : List StrikeRow) (cp : ℚ)
    (volume_signals : Option VolumeSignals) : Except Unit BestTrades := do
  let vb := volume_bias_of volume_signals
  let vr := volume_reason_of volume_signals
  let pairs ← best_rows_chk cp vb vr options
  let atmS := sort_desc (fun t => t.score) (pairs.map Prod.fst).flatten
  let otmS := sort_desc (fun t => t.score) (pairs.map Prod.snd).flatten
  let allS := sort_desc (fun t => t.score) (atmS ++ otmS)
  pure { best_overall := allS.take 1, best_atm := atmS.take 2, best_otm := otmS.take 2 }

/-- Checked loop body of `analyze_price_imbalances`, with the source's
short-circuit `or` on the two spread tests. -/
def imb_cand_chk (cp : ℚ) (opt : StrikeRow) : Except Unit (Option Trade) :=
  if opt.call_ltp ≤ 0 ∨ opt.put_ltp ≤ 0 then pure none
  else do
    let strike_distance_pct ← divE (|opt.strike - cp|) cp
    if strike_distance_pct > 7/100 then pure none
    else do
      let call_put_ratio ← divE opt.call_ltp opt.put_ltp
      if opt.call_volume < 500 ∨ opt.put_volume < 500 then pure none
      else do
        let call_sp ← divE (opt.call_ask - opt.call_bid) opt.call_ltp
        if call_sp > 5/100 then pure none
        else do
          let put_sp ← divE (opt.put_ask - opt.put_bid) opt.put_ltp
          if put_sp > 5/100 then pure none
          else if call_put_ratio > 15/10 then
            pure (some (mk_imb_put opt call_put_ratio))
          else if call_put_ratio < 67/100 then do
            let inv ← divE (67/100) call_put_ratio
            pure (some (mk_imb_call opt call_put_ratio inv))
          else pure none

/-- Checked row loop of `analyze_price_imbalances`. -/
def imb_loop_chk (cp : ℚ) : List StrikeRow → Except Unit (List Trade)
  | [] => Except.ok []
  | opt :: rest => do
    let cand ← imb_cand_chk cp opt
    let tail ← imb_loop_chk cp rest
    pure (match cand with | some t => t :: tail | none => tail)

/-- Checked variant of `analyze_price_imbalances`. -/
def analyze_price_imbalances_chk (options : List StrikeRow) (cp : ℚ) :
    Except Unit (List Trade) := do
  let cands ← imb_loop_chk cp options
  pure (sort_desc (fun t => t.score) cands)

/-- Concrete row used by witnesses: strike 200 with all other fields 0 (out of
every window around a spot of 100). -/
def rowFar : StrikeRow :=
  { strike := 200, call_oi := 0, call_oi_chng := 0, call_volume := 0, call_iv := 0,
    call_ltp := 0, call_chng := 0, call_bid := 0, call_ask := 0, put_oi := 0,
    put_oi_chng := 0, put_volume := 0, put_iv := 0, put_ltp := 0, put_chng := 0,
    put_bid := 0, put_ask := 0 }

/-- Concrete row used by witnesses: at-the-spot strike 100 with
`call_last = 10, put_last = 4` (price ratio 2.5), both volumes 500, and
zero-width spreads — the spec's Scenario C row. -/
def rowImb : StrikeRow :=
  { strike := 100, call_oi := 0, call_oi_chng := 0, call_volume := 500, call_iv := 0,
    call_ltp := 10, call_chng := 0, call_bid := 10, call_ask := 10, put_oi := 0,
    put_oi_chng := 0, put_volume := 500, put_iv := 0, put_ltp := 4, put_chng := 0,
    put_bid := 4, put_ask := 4 }

/-- Concrete row used by witnesses: in-band strike 100 with a plain option
chain profile (`call_oi = 1000`, `put_oi = 3000`). -/
def rowOi : StrikeRow :=
  { strike := 100, call_oi := 1000, call_oi_chng := 0, call_volume := 0, call_iv := 0,
    call_ltp := 0, call_chng := 0, call_bid := 0, call_ask := 0, put_oi := 3000,
    put_oi_chng := 5000, put_volume := 0, put_iv := 0, put_ltp := 0, put_chng := 0,
    put_bid := 0, put_ask := 0 }

/-- Concrete news list used by witnesses: the spec's Scenario E — sentiments
[Bullish, Bullish, Bearish] with scores [0.6, 0.5, -0.4]. -/
def scenarioE : List NewsItem :=
  [⟨"Bullish", 6/10, []⟩, ⟨"Bullish", 5/10, []⟩, ⟨"Bearish", -(4/10), []⟩]

/-- Concrete CALL candidate used by witnesses. -/
def tCall : Trade :=
  ⟨"CALL", 100, 1, 2, 1, some 1, some 2000, some 10, 5, "sample"⟩

/-- C2 counterexample: `calculate_score` is NOT monotonically non-decreasing in
its `spread_pct` argument (raising the spread from 0 to 1 lowers the score from
2 to 0), and its value is NOT always in `[0, 10]` (a large negative `oi_change`
drives it to -38). -/
theorem C2_counterexample :
    calculate_score 0 0 1 0 < calculate_score 0 0 0 0 ∧
      calculate_score (-100000) 0 0 0 < 0 := by
  constructor <;> norm_num [calculate_score]

/-- C2 (amended): `calculate_score` is monotonically non-decreasing in
`oi_change`, `volume` and `iv`, monotonically non-INCREASING in `spread_pct`,
and its value lies in `[0, 10]` whenever all four inputs are non-negative. -/
theorem C2_amended_thm :
    (∀ a b v s i : ℚ, a ≤ b → calculate_score a v s i ≤ calculate_score b v s i) ∧
    (∀ o a b s i : ℚ, a ≤ b → calculate_score o a s i ≤ calculate_score o b s i) ∧
    (∀ o v a b i : ℚ, a ≤ b → calculate_score o v b i ≤ calculate_score o v a i) ∧
    (∀ o v s a b : ℚ, a ≤ b → calculate_score o v s a ≤ calculate_score o v s b) ∧
    (∀ o v s i : ℚ, 0 ≤ o → 0 ≤ v → 0 ≤ s → 0 ≤ i →
      0 ≤ calculate_score o v s i ∧ calculate_score o v s i ≤ 10) := by
  have hmin : ∀ x y : ℚ, x ≤ y → min (x / 1000) 10 ≤ min (y / 1000) 10 := by
    intro x y h
    exact min_le_min (by linarith) le_rfl
  refine ⟨?_, ?_, ?_, ?_, ?_⟩
  · intro a b v s i h
    unfold calculate_score
    have h1 : min (a / 1000) 10 ≤ min (b / 1000) 10 :=
      min_le_min (by linarith) le_rfl
    have h2 : min (a / 1000) 10 ≤ 10 := min_le_right _ _
    nlinarith [h1]
  · intro o a b s i h
    unfold calculate_score
    have h1 : min (a / 5000) 10 ≤ min (b / 5000) 10 :=
      min_le_min (by linarith) le_rfl
    nlinarith [h1]
  · intro o v a b i h
    unfold calculate_score
    have h1 : max (10 - b * 100) 0 ≤ max (10 - a * 100) 0 :=
      max_le_max (by linarith) le_rfl
    nlinarith [h1]
  · intro o v s a b h
    unfold calculate_score
    have h1 : min (a / 5) 10 ≤ min (b / 5) 10 :=
      min_le_min (by linarith) le_rfl
    nlinarith [h1]
  · intro o v s i ho hv hs hi
    unfold calculate_score
    have o1 : 0 ≤ min (o / 1000) 10 := le_min (by positivity) (by norm_num)
    have o2 : min (o / 1000) 10 ≤ 10 := min_le_right _ _
    have v1 : 0 ≤ min (v / 5000) 10 := le_min (by positivity) (by norm_num)
    have v2 : min (v / 5000) 10 ≤ 10 := min_le_right _ _
    have s1 : 0 ≤ max (10 - s * 100) 0 := le_max_right _ _
    have s2 : max (10 - s * 100) 0 ≤ 10 := max_le (by linarith) (by norm_num)
    have i1 : 0 ≤ min (i / 5) 10 := le_min (by positivity) (by norm_num)
    have i2 : min (i / 5) 10 ≤ 10 := min_le_right _ _
    constructor <;> nlinarith

/-- C2 witness: concrete instances of the amended monotonicity and range facts. -/
theorem C2_amended_witness :
    calculate_score 0 0 0 0 ≤ calculate_score 1000 0 0 0 ∧
      (0 ≤ calculate_score 1000 5000 0 50 ∧ calculate_score 1000 5000 0 50 ≤ 10) :=
  ⟨C2_amended_thm.1 0 1000 0 0 0 (by norm_num),
   C2_amended_thm.2.2.2.2 1000 5000 0 50 (by norm_num) (by norm_num) (by norm_num)
     (by norm_num)⟩

/-- Decidable equality for `Except`, used only to evaluate the checked
functions on concrete inputs. -/
instance {ε α : Type} [DecidableEq ε] [DecidableEq α] : DecidableEq (Except ε α) :=
  fun a b =>
    match a, b with
    | .error x, .error y =>
      if h : x = y then isTrue (by rw [h])
      else isFalse (fun c => h (by injection c))
    | .ok x, .ok y =>
      if h : x = y then isTrue (by rw [h])
      else isFalse (fun c => h (by injection c))
    | .error _, .ok _ => isFalse (fun c => Except.noConfusion c)
    | .ok _, .error _ => isFalse (fun c => Except.noConfusion c)

/-- Value of a list of decimal digit characters; `none` if any character is
not a digit.  The empty list is `some 0` (used for the parts around a decimal
point, where e.g. `".5"` and `"1."` are valid Python float literals). -/
def digitsVal (cs : List Char) : Option ℕ :=
  if cs.all Char.isDigit then
    some (cs.foldl (fun acc c => acc * 10 + (c.toNat - 48)) 0)
  else none

/-- Parse an unsigned decimal literal (Python `float` syntax restricted to
plain decimals; exponent/`inf`/`nan` forms are not modelled — `parse_number`
turns them into 0 via its catch-all, which none of the claims exercise). -/
def parseUnsignedDec (cs : List Char) : Option ℚ :=
  match List.splitOn '.' cs with
  | [ip] => if ip.isEmpty then none else (digitsVal ip).map (fun n => (n : ℚ))
  | [ip, fp] =>
    if ip.isEmpty && fp.isEmpty then none
    else
      match digitsVal ip, digitsVal fp with
      | some i, some f => some ((i : ℚ) + (f : ℚ) / (10 : ℚ) ^ fp.length)
      | _, _ => none
  | _ => none

/-- Parse a signed decimal literal. -/
def parseDec (cs : List Char) : Option ℚ :=
  match cs with
  | '-' :: rest => (parseUnsignedDec rest).map (fun q => -q)
  | '+' :: rest => parseUnsignedDec rest
  | _ => parseUnsignedDec cs

/-- Parse a signed integer literal (Python `int` syntax: sign and digits only;
in particular a string with a decimal point fails, as `int("1.5")` raises). -/
def parseIntLit (cs : List Char) : Option ℤ :=
  match cs with
  | '-' :: rest =>
    if rest.isEmpty then none else (digitsVal rest).map (fun n => -(n : ℤ))
  | '+' :: rest =>
    if rest.isEmpty then none else (digitsVal rest).map (fun n => (n : ℤ))
  | _ => if cs.isEmpty then none else (digitsVal cs).map (fun n => (n : ℤ))

/-- Python's `str.strip()` on the character list of a string. -/
def pyStrip (cs : List Char) : List Char :=
  ((cs.dropWhile Char.isWhitespace).reverse.dropWhile Char.isWhitespace).reverse

/-- `parse_number` (trade.py 9-17): `'-'` and `''` (after stripping) denote 0,
thousands separators (`value.replace(',', '')`) are removed, and any parse
failure yields 0 via the bare `except`.  `asInt` selects the `num_type=int`
call sites; Python's `float`/`int` tolerate surrounding whitespace, hence the
stripping before the literal parse. -/
def parse_number (value : String) (asInt : Bool) : ℚ :=
  if pyStrip value.data = ['-'] ∨ pyStrip value.data = [] then 0
  else
    let cleaned := pyStrip (value.data.filter (fun c => c ≠ ','))
    if asInt then ((parseIntLit cleaned).map (fun n => (n : ℚ))).getD 0
    else (parseDec cleaned).getD 0

/-- Reading a cell `row[i]`: Python raises `IndexError` when `i` is out of
range, modelled as `Except.error ()`. -/
def cellAt (row : List String) (i : ℕ) : Except Unit String :=
  match row.get? i with
  | some s => Except.ok s
  | none => Except.error ()

/-- Translation of the loop body of `read_option_chain` (trade.py 27-72):
a row with fewer than 21 cells is skipped (`Except.ok none`); otherwise the
cells are read in the source's order — note that cell index 21 is read even
though the guard only ensured 21 cells (indices 0-20), so a 21-cell row
raises `IndexError`. -/
def parseChainRow (row : List String) : Except Unit (Option StrikeRow) :=
  if row.length < 21 then Except.ok none
  else do
    let call_oi ← cellAt row 1
    let call_oi_chng ← cellAt row 2
    let call_volume ← cellAt row 3
    let call_iv ← cellAt row 4
    let call_ltp ← cellAt row 5
    let call_chng ← cellAt row 6
    let call_bid ← cellAt row 8
    let call_ask ← cellAt row 9
    let strike ← cellAt row 11
    let put_bid ← cellAt row 13
    let put_ask ← cellAt row 14
    let put_chng ← cellAt row 16
    let put_ltp ← cellAt row 17
    let put_iv ← cellAt row 18
    let put_volume ← cellAt row 19
    let put_oi_chng ← cellAt row 20
    let put_oi ← cellAt row 21
    Except.ok (some {
      strike := parse_number strike false
      call_oi := parse_number call_oi true
      call_oi_chng := parse_number call_oi_chng true
      call_volume := parse_number call_volume true
      call_iv := parse_number call_iv false
      call_ltp := parse_number call_ltp false
      call_chng := parse_number call_chng false
      call_bid := parse_number call_bid false
      call_ask := parse_number call_ask false
      put_oi := parse_number put_oi true
      put_oi_chng := parse_number put_oi_chng true
      put_volume := parse_number put_volume true
      put_iv := parse_number put_iv false
      put_ltp := parse_number put_ltp false
      put_chng := parse_number put_chng false
      put_bid := parse_number put_bid false
      put_ask := parse_number put_ask false })

/-- The row loop of `read_option_chain`, in input order. -/
def readChainRows : List (List String) → Except Unit (List StrikeRow)
  | [] => Except.ok []
  | row :: rest => do
    let parsed ← parseChainRow row
    let tail ← readChainRows rest
    match parsed with
    | some r => Except.ok (r :: tail)
    | none => Except.ok tail

/-- `read_option_chain` (trade.py 19-73) on an already-split CSV table (a list
of rows, each a list of cells).  The two `next(reader)` calls consume the
header and subheader rows and raise `StopIteration` when the table has fewer
than two rows; an unreadable file (`open` raising) corresponds to no table at
all and is outside this model.  Python has no handler around any of this, so
every error propagates to the caller. -/
def read_option_chain : List (List String) → Except Unit (List StrikeRow)
  | [] => Except.error ()
  | [_] => Except.error ()
  | _ :: _ :: body => readChainRows body

/-- C3 is wrong about the code (code bug): `read_option_chain` checks
`len(row) < 21` but then reads `row[21]`, so a data row with exactly 21 cells
passes the guard and raises `IndexError` instead of being skipped or parsed;
a table with fewer than two rows raises `StopIteration` at the header skips
instead of returning an empty snapshot.  A 22-cell row of `"0"` cells parses
fine, showing the guard is off by one. -/
theorem C3_thm :
    read_option_chain [[], [], List.replicate 21 "0"] = Except.error () ∧
      read_option_chain [] = Except.error () ∧
      read_option_chain [[]] = Except.error () ∧
      read_option_chain [[], [], List.replicate 22 "0"] =
        Except.ok [{ strike := 0, call_oi := 0, call_oi_chng := 0,
                     call_volume := 0, call_iv := 0, call_ltp := 0,
                     call_chng := 0, call_bid := 0, call_ask := 0,
                     put_oi := 0, put_oi_chng := 0, put_volume := 0,
                     put_iv := 0, put_ltp := 0, put_chng := 0,
                     put_bid := 0, put_ask := 0 }] := by
  refine ⟨rfl, rfl, rfl, by decide⟩

/-- C1 counterexample: on the empty snapshot with `current_price = 100` the
code's `pcr = 0` fires the `pcr < 0.7` rule, so the bias is "Bearish" with
confidence 30 and `target_price = min(0, 99) = 0` — not the
Neutral/0/`current_price` output the claim states. -/
theorem C1_counterexample :
    (analyze_market_direction [] 100).bias = "Bearish" ∧
      (analyze_market_direction [] 100).bias ≠ "Neutral" ∧
      (analyze_market_direction [] 100).confidence = 30 ∧
      (analyze_market_direction [] 100).target_price = 0 := by
  refine ⟨?_, ?_, ?_, ?_⟩ <;>
    norm_num [analyze_market_direction, md_finish, md_init] <;> decide

/-- C1 (amended): for every `current_price`, the empty snapshot yields bias
"Bearish" with confidence 30 (the `pcr = 0 < 0.7` rule fires, and the
`volume_ratio = 0 < 0.8` rule adds its reason but no confidence),
`target_price = min(0, current_price*0.99)` and zero max-OI strikes; the
candidate generators emit no candidates, and the recommender emits the
sentinel "No high-potential trades found" recommendation. -/
theorem C1_amended_thm (cp confidence : ℚ) (vs : Option VolumeSignals)
    (bias news_sent news_summary sector sector_sent : String) :
    analyze_market_direction [] cp =
      { bias := "Bearish", confidence := 30,
        target_price := min 0 (cp * (99/100)), pcr := 0,
        reason := "Low Put-Call Ratio indicates potential reversal. Higher Call volume indicates bullish sentiment",
        max_call_oi_strike := 0, max_put_oi_strike := 0 } ∧
      analyze_best_trades [] cp vs =
        { best_overall := [], best_atm := [], best_otm := [] } ∧
      analyze_price_imbalances [] cp = [] ∧
      select_top_trade [] bias confidence news_sent news_summary sector sector_sent =
        no_trade_sentinel := by
  have hreason : String.intercalate ". "
      ["Low Put-Call Ratio indicates potential reversal",
       "Higher Call volume indicates bullish sentiment"] =
      "Low Put-Call Ratio indicates potential reversal. Higher Call volume indicates bullish sentiment" := by
    decide
  refine ⟨?_, rfl, rfl, rfl⟩
  norm_num [analyze_market_direction, md_finish, md_init, hreason]
  exact ⟨by decide, fun h => absurd h (by decide)⟩

/-- C4: a strike row lying strictly outside the ±5% window around
`current_price` never affects `analyze_market_direction` — inserting it (or,
read right to left, removing it) anywhere in the snapshot leaves the whole
result, including `pcr`, bias, confidence, target price and the max-OI
strikes, unchanged. -/
theorem C4_thm (l1 l2 : List StrikeRow) (opt : StrikeRow) (cp : ℚ)
    (hcp : 0 < cp) (hout : cp * (5/100) < |opt.strike - cp|) :
    analyze_market_direction (l1 ++ opt :: l2) cp =
      analyze_market_direction (l1 ++ l2) cp := by
  have hstep : ∀ acc : MDAcc, md_step cp acc opt = acc := by
    intro acc
    unfold md_step
    rw [if_neg]
    intro h
    rw [div_le_iff₀ hcp] at h
    nlinarith
  unfold analyze_market_direction
  rw [List.foldl_append, List.foldl_append, List.foldl_cons, hstep]

/-- C4 witness: at spot 100, adding the strike-200 row (100% away) to a
one-row snapshot leaves the market direction unchanged. -/
theorem C4_witness :
    analyze_market_direction [rowOi, rowFar] 100 =
      analyze_market_direction [rowOi] 100 := by
  have h := C4_thm [rowOi] [] rowFar 100 (by norm_num)
    (by norm_num [rowFar])
  simpa using h

/-- C9 counterexample: a successful input with `inflow_ratio = outflow_ratio
= 0.5` and `delivery_percentage = 70` gets `volume_score = 3`, not
`(inflow - outflow) * 20 = 0` as the claim states — the delivery adjustment
is added on top. -/
theorem C9_counterexample :
    (analyze_volume_signals ⟨true, some (1/2), some (1/2), some 70⟩).volume_score = 3 ∧
      ((1 : ℚ)/2 - 1/2) * 20 = 0 ∧ (3 : ℚ) ≠ 0 := by
  refine ⟨?_, by norm_num, by norm_num⟩
  norm_num [analyze_volume_signals]

/-- C9 (amended): for a successful input carrying both ratios,
`analyze_volume_signals` computes the base score `(inflow - outflow) * 20`,
labels it by the claim's thresholds applied to that base score, appends one
threshold reason (plus one delivery reason when a delivery percentage above
40 is present), and the final `volume_score` is the base score plus the
delivery adjustment (+3 above 60%, +1 above 40%, else +0); an unsuccessful
input yields the zero-score Neutral signal with no reasons. -/
theorem C9_thm :
    (∀ (inflow outflow : ℚ) (delivery : Option ℚ),
      (analyze_volume_signals ⟨true, some inflow, some outflow, delivery⟩).volume_score =
        (inflow - outflow) * 20 +
          (match delivery with
            | none => (0 : ℚ)
            | some d => if d > 60 then 3 else if d > 40 then 1 else 0) ∧
      (analyze_volume_signals ⟨true, some inflow, some outflow, delivery⟩).volume_signal =
        (if (inflow - outflow) * 20 > 3 then "Strong Bullish"
         else if (inflow - outflow) * 20 > 1 then "Bullish"
         else if (inflow - outflow) * 20 < -3 then "Strong Bearish"
         else if (inflow - outflow) * 20 < -1 then "Bearish"
         else "Neutral") ∧
      (analyze_volume_signals ⟨true, some inflow, some outflow, delivery⟩).reasons.length =
        1 + (match delivery with
          | none => 0
          | some d => if d > 40 then 1 else 0)) ∧
    (∀ vd : VolumeData, vd.success = false →
      analyze_volume_signals vd = ⟨0, "Neutral", []⟩) := by
  constructor
  · intro inflow outflow delivery
    rcases delivery with _ | d
    · simp only [analyze_volume_signals]
      norm_num
      split_ifs <;> simp
    · simp only [analyze_volume_signals]
      norm_num
      split_ifs <;> first | (exfalso; linarith) | simp
  · intro vd h
    simp [analyze_volume_signals, h]

/-- C9 witness: Scenario D — inflow 0.7, outflow 0.3, no delivery data gives
score 8 and label "Strong Bullish". -/
theorem C9_witness :
    (analyze_volume_signals ⟨true, some (7/10), some (3/10), none⟩).volume_score = 8 ∧
      (analyze_volume_signals ⟨true, some (7/10), some (3/10), none⟩).volume_signal =
        "Strong Bullish" := by
  have h := C9_thm.1 (7/10) (3/10) none
  refine ⟨?_, ?_⟩
  · rw [h.1]; norm_num
  · rw [h.2.1]; norm_num

/-- C8: for every non-empty news list the aggregate score equals the
spec's weighted average (weights [1.0, 0.7, 0.4] over the up-to-3 most recent
items, normalized by the sum of the weights actually used), and the
confidence is "High" when one distinct classified sentiment occurs, "Medium"
when exactly two distinct values occur, and "Low" otherwise; the empty list
yields the Neutral/Low/"No recent news available" sentinel. -/
theorem C8_thm :
    (∀ l : List NewsItem, l ≠ [] →
      (calculate_overall_sentiment l).score = spec_weighted_average l ∧
      (calculate_overall_sentiment l).confidence =
        (if (l.map (fun item => item.sentiment)).dedup.length = 1 then "High"
         else if (l.map (fun item => item.sentiment)).dedup.length = 2 then "Medium"
         else "Low")) ∧
    calculate_overall_sentiment [] = ⟨"Neutral", 0, "Low", "No recent news available"⟩ := by
  constructor
  · intro l hl
    rcases l with _ | ⟨a, _ | ⟨b, _ | ⟨c, rest⟩⟩⟩
    · exact absurd rfl hl
    · exact ⟨by simp [calculate_overall_sentiment, spec_weighted_average,
        sentimentWeights], rfl⟩
    · exact ⟨by simp [calculate_overall_sentiment, spec_weighted_average,
        sentimentWeights], rfl⟩
    · exact ⟨by simp [calculate_overall_sentiment, spec_weighted_average,
        sentimentWeights], rfl⟩
  · rfl

/-- C8 witness: Scenario E — three items with sentiments
[Bullish, Bullish, Bearish] and scores [0.6, 0.5, -0.4] give the weighted
average score, overall sentiment "Bullish" and confidence "Medium". -/
theorem C8_witness :
    (calculate_overall_sentiment scenarioE).score = spec_weighted_average scenarioE ∧
      (calculate_overall_sentiment scenarioE).sentiment = "Bullish" ∧
      (calculate_overall_sentiment scenarioE).confidence = "Medium" := by
  have h := C8_thm.1 scenarioE (by simp [scenarioE])
  refine ⟨h.1, ?_, ?_⟩
  · norm_num [calculate_overall_sentiment, scenarioE, sentimentWeights]
  · have hlen : ((scenarioE.map (fun item => item.sentiment)).dedup.length) = 2 := by
      decide
    rw [h.2]
    simp [hlen]

/-- C6: any strike row within the 7% window with positive call and put last
prices, both volumes at least 500 and both spread fractions within the 5%
limit, whose price ratio `call_last/put_last` exceeds 1.5, makes the
imbalance generator emit exactly one PUT candidate for that strike with
`score = min((ratio - 1.5) * 10, 10)`. -/
theorem C6_thm (opt : StrikeRow) (cp : ℚ)
    (hdist : |opt.strike - cp| / cp ≤ 7/100)
    (hcltp : 0 < opt.call_ltp) (hpltp : 0 < opt.put_ltp)
    (hcv : 500 ≤ opt.call_volume) (hpv : 500 ≤ opt.put_volume)
    (hcs : (opt.call_ask - opt.call_bid) / opt.call_ltp ≤ 5/100)
    (hps : (opt.put_ask - opt.put_bid) / opt.put_ltp ≤ 5/100)
    (hratio : 15/10 < opt.call_ltp / opt.put_ltp) :
    imb_cand cp opt = some (mk_imb_put opt (opt.call_ltp / opt.put_ltp)) ∧
      analyze_price_imbalances [opt] cp = [mk_imb_put opt (opt.call_ltp / opt.put_ltp)] ∧
      (mk_imb_put opt (opt.call_ltp / opt.put_ltp)).type = "PUT" ∧
      (mk_imb_put opt (opt.call_ltp / opt.put_ltp)).strike = opt.strike ∧
      (mk_imb_put opt (opt.call_ltp / opt.put_ltp)).score =
        min ((opt.call_ltp / opt.put_ltp - 15/10) * 10) 10 := by
  have g1 : ¬(opt.call_ltp ≤ 0 ∨ opt.put_ltp ≤ 0) := by
    push_neg
    exact ⟨hcltp, hpltp⟩
  have g2 : ¬(|opt.strike - cp| / cp > 7/100) := not_lt.mpr hdist
  have g3 : ¬(opt.call_volume < 500 ∨ opt.put_volume < 500) := by
    push_neg
    exact ⟨hcv, hpv⟩
  have g4 : ¬((opt.call_ask - opt.call_bid) / opt.call_ltp > 5/100) := not_lt.mpr hcs
  have g5 : ¬((opt.put_ask - opt.put_bid) / opt.put_ltp > 5/100) := not_lt.mpr hps
  have h1 : imb_cand cp opt = some (mk_imb_put opt (opt.call_ltp / opt.put_ltp)) := by
    simp only [imb_cand, if_neg g1, if_neg g2, if_neg g3, if_neg g4, if_neg g5,
      if_pos hratio]
  refine ⟨h1, ?_, rfl, rfl, rfl⟩
  simp [analyze_price_imbalances, h1, sort_desc, insert_desc]

/-- C6 witness: Scenario C — the row with `call_last = 10, put_last = 4`
(ratio 2.5), both volumes 500 and zero spreads yields exactly one PUT
candidate with score 10. -/
theorem C6_witness :
    analyze_price_imbalances [rowImb] 100 = [mk_imb_put rowImb (10/4)] ∧
      (mk_imb_put rowImb (10/4)).type = "PUT" ∧
      (mk_imb_put rowImb (10/4)).strike = 100 ∧
      (mk_imb_put rowImb (10/4)).score = 10 := by
  have h := C6_thm rowImb 100 (by norm_num [rowImb]) (by norm_num [rowImb])
    (by norm_num [rowImb]) (by norm_num [rowImb]) (by norm_num [rowImb])
    (by norm_num [rowImb]) (by norm_num [rowImb]) (by norm_num [rowImb])
  refine ⟨?_, rfl, by norm_num [mk_imb_put, rowImb], ?_⟩
  · have h2 := h.2.1
    simpa [rowImb] using h2
  · norm_num [mk_imb_put, rowImb]

/-- Membership in a stable descending insertion. -/
theorem mem_insert_desc {α : Type} (key : α → ℚ) (a x : α) :
    ∀ l : List α, x ∈ insert_desc key a l ↔ x = a ∨ x ∈ l := by
  intro l
  induction l with
  | nil => simp [insert_desc]
  | cons b bs ih =>
    unfold insert_desc
    split_ifs with h
    · simp [or_comm, or_assoc, or_left_comm]
    · simp [ih]
      tauto

/-- Membership is preserved by the stable descending sort. -/
theorem mem_sort_desc {α : Type} (key : α → ℚ) (x : α) :
    ∀ l : List α, x ∈ sort_desc key l ↔ x ∈ l := by
  intro l
  induction l with
  | nil => simp [sort_desc]
  | cons b bs ih => simp [sort_desc, mem_insert_desc, ih]

/-- Every ATM CALL candidate comes with its source row's spread guard. -/
theorem atm_call_cand_sound {pct vb : ℚ} {vr : String} {opt : StrikeRow} {c : Trade}
    (hc : c ∈ atm_call_cand pct vb vr opt) :
    c.strike = opt.strike ∧ c.type = "CALL" ∧ 0 < opt.call_ltp ∧
      (opt.call_ask - opt.call_bid) / opt.call_ltp < 5/100 := by
  unfold atm_call_cand at hc
  split_ifs at hc <;>
    first
      | exact absurd hc (List.not_mem_nil _)
      | (simp only [List.mem_singleton] at hc
         subst hc
         exact ⟨rfl, rfl, by assumption, by assumption⟩)

/-- Every ATM PUT candidate comes with its source row's spread guard. -/
theorem atm_put_cand_sound {pct vb : ℚ} {vr : String} {opt : StrikeRow} {c : Trade}
    (hc : c ∈ atm_put_cand pct vb vr opt) :
    c.strike = opt.strike ∧ c.type = "PUT" ∧ 0 < opt.put_ltp ∧
      (opt.put_ask - opt.put_bid) / opt.put_ltp < 5/100 := by
  unfold atm_put_cand at hc
  split_ifs at hc <;>
    first
      | exact absurd hc (List.not_mem_nil _)
      | (simp only [List.mem_singleton] at hc
         subst hc
         exact ⟨rfl, rfl, by assumption, by assumption⟩)

/-- Every OTM CALL candidate comes with its source row's spread guard. -/
theorem otm_call_cand_sound {vb : ℚ} {vr : String} {opt : StrikeRow} {c : Trade}
    (hc : c ∈ otm_call_cand vb vr opt) :
    c.strike = opt.strike ∧ c.type = "CALL" ∧ 0 < opt.call_ltp ∧
      (opt.call_ask - opt.call_bid) / opt.call_ltp < 8/100 := by
  unfold otm_call_cand at hc
  split_ifs at hc <;>
    first
      | exact absurd hc (List.not_mem_nil _)
      | (simp only [List.mem_singleton] at hc
         subst hc
         exact ⟨rfl, rfl, by assumption, by assumption⟩)

/-- Every OTM PUT candidate comes with its source row's spread guard. -/
theorem otm_put_cand_sound {vb : ℚ} {vr : String} {opt : StrikeRow} {c : Trade}
    (hc : c ∈ otm_put_cand vb vr opt) :
    c.strike = opt.strike ∧ c.type = "PUT" ∧ 0 < opt.put_ltp ∧
      (opt.put_ask - opt.put_bid) / opt.put_ltp < 8/100 := by
  unfold otm_put_cand at hc
  split_ifs at hc <;>
    first
      | exact absurd hc (List.not_mem_nil _)
      | (simp only [List.mem_singleton] at hc
         subst hc
         exact ⟨rfl, rfl, by assumption, by assumption⟩)

/-- Every imbalance candidate's source row passed both 5% spread guards. -/
theorem imb_cand_sound {cp : ℚ} {opt : StrikeRow} {c : Trade}
    (h : imb_cand cp opt = some c) :
    c.strike = opt.strike ∧ 0 < opt.call_ltp ∧ 0 < opt.put_ltp ∧
      (opt.call_ask - opt.call_bid) / opt.call_ltp ≤ 5/100 ∧
      (opt.put_ask - opt.put_bid) / opt.put_ltp ≤ 5/100 := by
  simp only [imb_cand] at h
  split_ifs at h with h1 h2 h3 h4 h5 h6 h7
  all_goals first
    | exact Option.noConfusion h
    | (simp only [Option.some.injEq] at h
       subst h
       push_neg at h1
       exact ⟨rfl, h1.1, h1.2, not_lt.mp h4, not_lt.mp h5⟩)

/-- C7: every candidate emitted by the three generators satisfies its
generator's spread bound — the ATM pool only ever contains candidates whose
source leg has a positive last price and a spread fraction below 5%, the OTM
pool below 8%, and the imbalance list within 5% on both legs. -/
theorem C7_thm :
    (∀ (options : List StrikeRow) (cp vb : ℚ) (vr : String) (c : Trade),
      c ∈ atm_pool options cp vb vr →
      ∃ opt ∈ options, c.strike = opt.strike ∧
        ((c.type = "CALL" ∧ 0 < opt.call_ltp ∧
            (opt.call_ask - opt.call_bid) / opt.call_ltp < 5/100) ∨
          (c.type = "PUT" ∧ 0 < opt.put_ltp ∧
            (opt.put_ask - opt.put_bid) / opt.put_ltp < 5/100))) ∧
    (∀ (options : List StrikeRow) (cp vb : ℚ) (vr : String) (c : Trade),
      c ∈ otm_pool options cp vb vr →
      ∃ opt ∈ options, c.strike = opt.strike ∧
        ((c.type = "CALL" ∧ 0 < opt.call_ltp ∧
            (opt.call_ask - opt.call_bid) / opt.call_ltp < 8/100) ∨
          (c.type = "PUT" ∧ 0 < opt.put_ltp ∧
            (opt.put_ask - opt.put_bid) / opt.put_ltp < 8/100))) ∧
    (∀ (options : List StrikeRow) (cp : ℚ) (c : Trade),
      c ∈ analyze_price_imbalances options cp →
      ∃ opt ∈ options, c.strike = opt.strike ∧
        0 < opt.call_ltp ∧ 0 < opt.put_ltp ∧
        (opt.call_ask - opt.call_bid) / opt.call_ltp ≤ 5/100 ∧
        (opt.put_ask - opt.put_bid) / opt.put_ltp ≤ 5/100) := by
  refine ⟨?_, ?_, ?_⟩
  · intro options cp vb vr c hc
    unfold atm_pool at hc
    rw [List.mem_flatten] at hc
    obtain ⟨l, hl, hcl⟩ := hc
    rw [List.mem_map] at hl
    obtain ⟨opt, hopt, rfl⟩ := hl
    refine ⟨opt, hopt, ?_⟩
    simp only [row_atm_trades] at hcl
    split_ifs at hcl with hA
    · rw [List.mem_append] at hcl
      rcases hcl with h | h
      · have hs := atm_call_cand_sound h
        exact ⟨hs.1, Or.inl hs.2⟩
      · have hs := atm_put_cand_sound h
        exact ⟨hs.1, Or.inr hs.2⟩
    · exact absurd hcl (List.not_mem_nil _)
  · intro options cp vb vr c hc
    unfold otm_pool at hc
    rw [List.mem_flatten] at hc
    obtain ⟨l, hl, hcl⟩ := hc
    rw [List.mem_map] at hl
    obtain ⟨opt, hopt, rfl⟩ := hl
    refine ⟨opt, hopt, ?_⟩
    simp only [row_otm_trades] at hcl
    split_ifs at hcl with hA hB hC
    · exact absurd hcl (List.not_mem_nil _)
    · have hs := otm_call_cand_sound hcl
      exact ⟨hs.1, Or.inl hs.2⟩
    · have hs := otm_put_cand_sound hcl
      exact ⟨hs.1, Or.inr hs.2⟩
    · exact absurd hcl (List.not_mem_nil _)
  · intro options cp c hc
    unfold analyze_price_imbalances at hc
    rw [mem_sort_desc] at hc
    rw [List.mem_filterMap] at hc
    obtain ⟨opt, hopt, hsome⟩ := hc
    exact ⟨opt, hopt, imb_cand_sound hsome⟩

/-- C7 witness: the Scenario C row's imbalance PUT candidate indeed comes
from a row with positive last prices and both spreads within 5%. -/
theorem C7_witness :
    ∃ opt ∈ [rowImb], (mk_imb_put rowImb (10/4)).strike = opt.strike ∧
      0 < opt.call_ltp ∧ 0 < opt.put_ltp ∧
      (opt.call_ask - opt.call_bid) / opt.call_ltp ≤ 5/100 ∧
      (opt.put_ask - opt.put_bid) / opt.put_ltp ≤ 5/100 := by
  refine C7_thm.2.2 [rowImb] 100 (mk_imb_put rowImb (10/4)) ?_
  have g1 : ¬(rowImb.call_ltp ≤ 0 ∨ rowImb.put_ltp ≤ 0) := by norm_num [rowImb]
  have h1 : imb_cand 100 rowImb = some (mk_imb_put rowImb (10/4)) := by
    unfold imb_cand
    rw [if_neg g1]
    norm_num [rowImb]
  simp [analyze_price_imbalances, h1, sort_desc, insert_desc]

/-- The head of a filtered list is the first element satisfying the predicate. -/
theorem filter_head?_eq_find? {α : Type} (p : α → Bool) :
    ∀ l : List α, (l.filter p).head? = l.find? p := by
  intro l
  induction l with
  | nil => rfl
  | cons a t ih =>
    cases h : p a with
    | true => simp [List.filter_cons, h]
    | false => simp [List.filter_cons, h, ih]

/-- Inserting adds one element. -/
theorem length_insert_desc {α : Type} (key : α → ℚ) (a : α) :
    ∀ l : List α, (insert_desc key a l).length = l.length + 1 := by
  intro l
  induction l with
  | nil => rfl
  | cons b bs ih =>
    unfold insert_desc
    split_ifs <;> simp [ih]

/-- The stable descending sort preserves length. -/
theorem length_sort_desc {α : Type} (key : α → ℚ) :
    ∀ l : List α, (sort_desc key l).length = l.length := by
  intro l
  induction l with
  | nil => rfl
  | cons b bs ih => simp [sort_desc, length_insert_desc, ih]

/-- C5: the recommender selects the first aligned candidate of the sorted
pool; when no candidate is aligned it selects the first candidate of the full
sorted pool; and on an empty pool it emits the "No high-potential trades
found" sentinel — it is a total function, so it cannot raise on empty
inputs. -/
theorem C5_thm (pool : List Trade) (bias : String) (confidence : ℚ)
    (news_sent news_summary sector sector_sent : String) :
    (pool = [] →
      select_top_trade pool bias confidence news_sent news_summary sector sector_sent =
        no_trade_sentinel) ∧
    (∀ t : Trade,
      (sort_desc (fun t => t.score) pool).find? (is_aligned bias news_sent sector_sent) =
          some t →
      (select_top_trade pool bias confidence news_sent news_summary sector
          sector_sent).trade = some t) ∧
    ((sort_desc (fun t => t.score) pool).find? (is_aligned bias news_sent sector_sent) =
        none →
      (select_top_trade pool bias confidence news_sent news_summary sector
          sector_sent).trade = (sort_desc (fun t => t.score) pool).head?) := by
  rcases pool with _ | ⟨p, ps⟩
  · refine ⟨fun _ => rfl, ?_, fun _ => rfl⟩
    intro t ht
    simp [sort_desc] at ht
  · refine ⟨fun h => absurd h (by simp), ?_, ?_⟩
    · intro t ht
      rw [← filter_head?_eq_find?] at ht
      simp only [select_top_trade]
      cases hal : List.filter (is_aligned bias news_sent sector_sent)
          (sort_desc (fun t => t.score) (p :: ps)) with
      | nil =>
        rw [hal] at ht
        simp at ht
      | cons x xs =>
        rw [hal] at ht
        simp only [List.head?] at ht
        simpa using ht
    · intro hn
      rw [← filter_head?_eq_find?, List.head?_eq_none_iff] at hn
      simp only [select_top_trade]
      rw [hn]
      have hlen : (sort_desc (fun t => t.score) (p :: ps)).length = ps.length + 1 := by
        rw [length_sort_desc]
        simp
      cases hs : sort_desc (fun t => t.score) (p :: ps) with
      | nil => rw [hs] at hlen; simp at hlen
      | cons s ss => simp

/-- C5 witness: a one-candidate pool whose CALL aligns with a Bullish bias and
non-Bearish news and sector sentiment is selected. -/
theorem C5_witness :
    (select_top_trade [tCall] "Bullish" 30 "Neutral" "summary" "IT"
        "Neutral").trade = some tCall := by
  refine (C5_thm [tCall] "Bullish" 30 "Neutral" "summary" "IT" "Neutral").2.1 tCall ?_
  decide

/-- A checked division with non-zero divisor succeeds. -/
theorem divE_ok {a b : ℚ} (h : b ≠ 0) : divE a b = Except.ok (a / b) := if_neg h

/-- A checked division by zero is Python's `ZeroDivisionError`. -/
theorem divE_zero (a : ℚ) : divE a 0 = Except.error () := by simp [divE]

/-- Bind on an `Except` error short-circuits. -/
theorem error_bind {α β : Type} (f : α → Except Unit β) :
    (Except.error () >>= f) = Except.error () := rfl

/-- Bind on an `Except` success applies the continuation. -/
theorem ok_bind {α β : Type} (a : α) (f : α → Except Unit β) :
    (Except.ok a >>= f) = f a := rfl

/-- Bind on a pure `Except` value applies the continuation. -/
theorem pure_bind_except {α β : Type} (a : α) (f : α → Except Unit β) :
    ((pure a : Except Unit α) >>= f) = f a := rfl

/-- A division guarded by positivity of the divisor never fails. -/
theorem guarded_divE (a b : ℚ) :
    (if b > 0 then divE a b else pure 0) = Except.ok (if b > 0 then a / b else 0) := by
  split_ifs with h
  · exact divE_ok (ne_of_gt h)
  · rfl

/-- The volume-factor computation for calls never fails (divisor 20). -/
theorem vf_pos_chk (vb : ℚ) :
    (if vb > 0 then divE vb 20 >>= fun t => pure (1 + t) else pure (1 : ℚ)) =
      Except.ok (if vb > 0 then 1 + vb / 20 else 1) := by
  split_ifs with h
  · rw [divE_ok (show (20 : ℚ) ≠ 0 by norm_num)]
    rfl
  · rfl

/-- The volume-factor computation for puts never fails (divisor 20). -/
theorem vf_neg_chk (vb : ℚ) :
    (if vb < 0 then divE (|vb|) 20 >>= fun t => pure (1 + t) else pure (1 : ℚ)) =
      Except.ok (if vb < 0 then 1 + |vb| / 20 else 1) := by
  split_ifs with h
  · rw [divE_ok (show (20 : ℚ) ≠ 0 by norm_num)]
    rfl
  · rfl

/-- The checked ATM CALL branch never fails and agrees with the total one. -/
theorem atm_call_cand_chk_ok (pct vb : ℚ) (vr : String) (opt : StrikeRow) :
    atm_call_cand_chk pct vb vr opt = Except.ok (atm_call_cand pct vb vr opt) := by
  simp only [atm_call_cand_chk, atm_call_cand]
  split_ifs with h1 h2 <;> try rfl
  all_goals (rw [divE_ok (ne_of_gt h2)]; simp only [ok_bind])
  all_goals (split_ifs <;> try rfl)
  all_goals simp only [divE_ok (show (20 : ℚ) ≠ 0 by norm_num), ok_bind,
    pure_bind_except]
  all_goals first
    | rfl
    | (rw [divE_ok (ne_of_gt (show (0 : ℚ) < opt.call_oi by assumption))]
       simp only [ok_bind, pure_bind_except]
       rfl)

/-- The checked ATM PUT branch never fails and agrees with the total one. -/
theorem atm_put_cand_chk_ok (pct vb : ℚ) (vr : String) (opt : StrikeRow) :
    atm_put_cand_chk pct vb vr opt = Except.ok (atm_put_cand pct vb vr opt) := by
  simp only [atm_put_cand_chk, atm_put_cand]
  split_ifs with h1 h2 <;> try rfl
  all_goals (rw [divE_ok (ne_of_gt h2)]; simp only [ok_bind])
  all_goals (split_ifs <;> try rfl)
  all_goals simp only [divE_ok (show (20 : ℚ) ≠ 0 by norm_num), ok_bind,
    pure_bind_except]
  all_goals first
    | rfl
    | (rw [divE_ok (ne_of_gt (show (0 : ℚ) < opt.put_oi by assumption))]
       simp only [ok_bind, pure_bind_except]
       rfl)

/-- The checked OTM CALL branch never fails and agrees with the total one. -/
theorem otm_call_cand_chk_ok (vb : ℚ) (vr : String) (opt : StrikeRow) :
    otm_call_cand_chk vb vr opt = Except.ok (otm_call_cand vb vr opt) := by
  simp only [otm_call_cand_chk, otm_call_cand]
  split_ifs with h1 h2 <;> try rfl
  all_goals (rw [divE_ok (ne_of_gt h2)]; simp only [ok_bind])
  all_goals (split_ifs <;> try rfl)
  all_goals simp only [divE_ok (show (20 : ℚ) ≠ 0 by norm_num), ok_bind,
    pure_bind_except]
  all_goals first
    | rfl
    | (rw [divE_ok (ne_of_gt (show (0 : ℚ) < opt.call_ask - opt.call_bid * (6/10)
        by assumption))]
       simp only [ok_bind, pure_bind_except]
       rfl)

/-- The checked OTM PUT branch never fails and agrees with the total one. -/
theorem otm_put_cand_chk_ok (vb : ℚ) (vr : String) (opt : StrikeRow) :
    otm_put_cand_chk vb vr opt = Except.ok (otm_put_cand vb vr opt) := by
  simp only [otm_put_cand_chk, otm_put_cand]
  split_ifs with h1 h2 <;> try rfl
  all_goals (rw [divE_ok (ne_of_gt h2)]; simp only [ok_bind])
  all_goals (split_ifs <;> try rfl)
  all_goals simp only [divE_ok (show (20 : ℚ) ≠ 0 by norm_num), ok_bind,
    pure_bind_except]
  all_goals first
    | rfl
    | (rw [divE_ok (ne_of_gt (show (0 : ℚ) < opt.put_ask - opt.put_bid * (6/10)
        by assumption))]
       simp only [ok_bind, pure_bind_except]
       rfl)

/-- The checked band test agrees with the total one off zero. -/
theorem md_step_chk_ok {cp : ℚ} (h : cp ≠ 0) (acc : MDAcc) (opt : StrikeRow) :
    md_step_chk cp acc opt = Except.ok (md_step cp acc opt) := by
  simp only [md_step_chk, md_step, divE_ok h, ok_bind]
  split_ifs <;> rfl

/-- The checked aggregation loop agrees with the total fold off zero. -/
theorem md_loop_chk_ok {cp : ℚ} (h : cp ≠ 0) :
    ∀ (l : List StrikeRow) (acc : MDAcc),
      md_loop_chk cp acc l = Except.ok (l.foldl (md_step cp) acc) := by
  intro l
  induction l with
  | nil => intro acc; rfl
  | cons opt rest ih =>
    intro acc
    simp only [md_loop_chk, md_step_chk_ok h, ok_bind, List.foldl_cons, ih]

/-- The checked market-direction analysis agrees with the total one off zero. -/
theorem amd_chk_ok (options : List StrikeRow) {cp : ℚ} (h : cp ≠ 0) :
    analyze_market_direction_chk options cp =
      Except.ok (analyze_market_direction options cp) := by
  simp only [analyze_market_direction_chk, analyze_market_direction,
    md_loop_chk_ok h, ok_bind]
  split_ifs with h1 h2 h3
  · rw [divE_ok (ne_of_gt h1), divE_ok (ne_of_gt h2)]
    rfl
  · rw [divE_ok (ne_of_gt h1)]
    rfl
  · rw [divE_ok (ne_of_gt h3)]
    rfl
  · rfl

/-- The checked loop iteration of `analyze_best_trades` agrees with the total
one off zero. -/
theorem row_trades_chk_ok {cp : ℚ} (h : cp ≠ 0) (vb : ℚ) (vr : String)
    (opt : StrikeRow) :
    row_trades_chk cp vb vr opt = Except.ok (row_trades cp vb vr opt) := by
  simp only [row_trades_chk, row_trades, row_atm_trades, row_otm_trades,
    divE_ok h, ok_bind]
  split_ifs <;>
    first
      | rfl
      | simp [atm_call_cand_chk_ok, atm_put_cand_chk_ok, otm_call_cand_chk_ok,
          otm_put_cand_chk_ok, ok_bind]

/-- The checked row loop of `analyze_best_trades` agrees with the total map. -/
theorem best_rows_chk_ok {cp : ℚ} (h : cp ≠ 0) (vb : ℚ) (vr : String) :
    ∀ options : List StrikeRow,
      best_rows_chk cp vb vr options =
        Except.ok (options.map (row_trades cp vb vr)) := by
  intro options
  induction options with
  | nil => rfl
  | cons opt rest ih =>
    simp only [best_rows_chk, row_trades_chk_ok h, ok_bind, ih, List.map_cons]
    rfl

/-- The checked `analyze_best_trades` agrees with the total one off zero. -/
theorem abt_chk_ok (options : List StrikeRow) {cp : ℚ}
    (vs : Option VolumeSignals) (h : cp ≠ 0) :
    analyze_best_trades_chk options cp vs =
      Except.ok (analyze_best_trades options cp vs) := by
  simp only [analyze_best_trades_chk, analyze_best_trades, best_rows_chk_ok h,
    ok_bind, atm_pool, otm_pool, List.map_map]
  rfl

/-- The checked imbalance row analysis agrees with the total one off zero. -/
theorem imb_cand_chk_ok {cp : ℚ} (h : cp ≠ 0) (opt : StrikeRow) :
    imb_cand_chk cp opt = Except.ok (imb_cand cp opt) := by
  simp only [imb_cand_chk, imb_cand]
  split_ifs with h1 h2 h3 h4 h5 h6 h7 <;> try rfl
  all_goals push_neg at h1
  all_goals try (rw [divE_ok h]; simp only [ok_bind])
  all_goals try (split_ifs <;> try rfl)
  all_goals try rfl
  all_goals try (rw [divE_ok (ne_of_gt h1.2)]; simp only [ok_bind])
  all_goals try (split_ifs <;> try rfl)
  all_goals try rfl
  all_goals try (rw [divE_ok (ne_of_gt h1.1)]; simp only [ok_bind])
  all_goals try (split_ifs <;> try rfl)
  all_goals try rfl
  all_goals try (rw [divE_ok (ne_of_gt h1.2)]; simp only [ok_bind])
  all_goals try (split_ifs <;> try rfl)
  all_goals try rfl
  all_goals (rw [divE_ok (ne_of_gt (div_pos h1.1 h1.2))]; rfl)

/-- The checked imbalance loop agrees with the total `filterMap` off zero. -/
theorem imb_loop_chk_ok {cp : ℚ} (h : cp ≠ 0) :
    ∀ options : List StrikeRow,
      imb_loop_chk cp options = Except.ok (options.filterMap (imb_cand cp)) := by
  intro options
  induction options with
  | nil => rfl
  | cons opt rest ih =>
    simp only [imb_loop_chk, imb_cand_chk_ok h, ok_bind, ih, List.filterMap_cons]
    cases imb_cand cp opt <;> rfl

/-- The checked `analyze_price_imbalances` agrees with the total one off zero. -/
theorem api_chk_ok (options : List StrikeRow) {cp : ℚ} (h : cp ≠ 0) :
    analyze_price_imbalances_chk options cp =
      Except.ok (analyze_price_imbalances options cp) := by
  simp only [analyze_price_imbalances_chk, analyze_price_imbalances,
    imb_loop_chk_ok h, ok_bind]
  rfl

/-- At `current_price = 0` the first checked imbalance row with positive last
prices raises the division error. -/
theorem imb_loop_chk_err :
    ∀ options : List StrikeRow,
      (∃ r ∈ options, 0 < r.call_ltp ∧ 0 < r.put_ltp) →
      imb_loop_chk 0 options = Except.error () := by
  intro options hex
  induction options with
  | nil => simp at hex
  | cons a rest ih =>
    by_cases ha : a.call_ltp ≤ 0 ∨ a.put_ltp ≤ 0
    · have hrest : ∃ r ∈ rest, 0 < r.call_ltp ∧ 0 < r.put_ltp := by
        rcases hex with ⟨r, hr, hpos⟩
        rcases List.mem_cons.mp hr with rfl | hr2
        · exact absurd ha (by push_neg; exact hpos)
        · exact ⟨r, hr2, hpos⟩
      have hskip : imb_cand_chk 0 a = Except.ok none := by
        simp only [imb_cand_chk]
        rw [if_pos ha]
        rfl
      simp only [imb_loop_chk, hskip, ok_bind, ih hrest, error_bind]
    · have herr : imb_cand_chk 0 a = Except.error () := by
        simp only [imb_cand_chk]
        rw [if_neg ha, divE_zero]
        rfl
      simp only [imb_loop_chk, herr, error_bind]

/-- C10: `current_price ≠ 0` is the needed totality precondition — at
`current_price = 0` each of the three analysis functions performs a division
by zero on the first (qualifying) row, while for `current_price ≠ 0` every
remaining division is guarded and the checked variants return exactly the
total results. -/
theorem C10_thm :
    (∀ (r : StrikeRow) (rest : List StrikeRow),
      analyze_market_direction_chk (r :: rest) 0 = Except.error ()) ∧
    (∀ (r : StrikeRow) (rest : List StrikeRow) (vs : Option VolumeSignals),
      analyze_best_trades_chk (r :: rest) 0 vs = Except.error ()) ∧
    (∀ options : List StrikeRow,
      (∃ r ∈ options, 0 < r.call_ltp ∧ 0 < r.put_ltp) →
      analyze_price_imbalances_chk options 0 = Except.error ()) ∧
    (∀ (options : List StrikeRow) (cp : ℚ) (vs : Option VolumeSignals), cp ≠ 0 →
      analyze_market_direction_chk options cp =
        Except.ok (analyze_market_direction options cp) ∧
      analyze_best_trades_chk options cp vs =
        Except.ok (analyze_best_trades options cp vs) ∧
      analyze_price_imbalances_chk options cp =
        Except.ok (analyze_price_imbalances options cp)) := by
  refine ⟨?_, ?_, ?_, ?_⟩
  · intro r rest
    simp [analyze_market_direction_chk, md_loop_chk, md_step_chk, divE_zero,
      error_bind]
  · intro r rest vs
    simp [analyze_best_trades_chk, best_rows_chk, row_trades_chk, divE_zero,
      error_bind]
  · intro options hex
    simp [analyze_price_imbalances_chk, imb_loop_chk_err options hex, error_bind]
  · intro options cp vs h
    exact ⟨amd_chk_ok options h, abt_chk_ok options vs h, api_chk_ok options h⟩

/-- C10 witness: at price 0 all three checked analyses fail on a one-row
snapshot with positive last prices, and at price 100 the checked
market-direction analysis returns the total result. -/
theorem C10_witness :
    analyze_market_direction_chk [rowImb] 0 = Except.error () ∧
      analyze_best_trades_chk [rowImb] 0 none = Except.error () ∧
      analyze_price_imbalances_chk [rowImb] 0 = Except.error () ∧
      analyze_market_direction_chk [rowImb] 100 =
        Except.ok (analyze_market_direction [rowImb] 100) :=
  ⟨C10_thm.1 rowImb [], C10_thm.2.1 rowImb [] none,
   C10_thm.2.2.1 [rowImb] ⟨rowImb, by simp, by norm_num [rowImb]⟩,
   ((C10_thm.2.2.2 [rowImb] 100 none (by norm_num)).1)⟩
